import Mathlib

/-!
Shallow embedding of the physics core of `mars_orbiter.py`:
two entities, `Satellite` and `Planet`, with the operations
`thruster`, `check_keys`, `locate`, `rotate`, `path`, `update`
(satellite) and `gravity` (planet), translated from the source.
Floating-point state is modelled by real numbers; pygame side effects
(drawing, sound, actual image blitting) are dropped, except that the
identity of the sprite image currently assigned to the satellite is
kept as an explicit `SatImage` value because the crash state is
expressed through it.
-/

namespace MarsOrbiter

/-- Python `math.hypot a b = sqrt (a^2 + b^2)`. -/
noncomputable def hypot (a b : ℝ) : ℝ := Real.sqrt (a ^ 2 + b ^ 2)

/-- Python `math.atan2 y x`: the argument of the complex number `x + y*I`,
in `(-pi, pi]`, with `atan2 0 0 = 0`. -/
noncomputable def atan2 (y x : ℝ) : ℝ := Complex.arg { re := x, im := y }

/-- The image currently assigned to the satellite sprite: either the
nominal satellite image rotated by some angle (`self.image_sat`, as
produced by `rotate()`; the angle records the rotation applied), or the
crash image `self.image_crash`. -/
inductive SatImage where
  | flying (angle : ℝ)
  | crash

/-- The snapshot of the four directional keys returned by
`pg.key.get_pressed()` in one tick. -/
structure Keys where
  right : Bool
  left : Bool
  up : Bool
  down : Bool

/-- The state of `Satellite` (`mars_orbiter.py`, `Satellite.__init__`):
position `x, y`, velocity `dx, dy`, `heading` in degrees, `fuel`,
`mass`, derived `distance`, and the currently assigned sprite image. -/
structure Satellite where
  x : ℝ
  y : ℝ
  dx : ℝ
  dy : ℝ
  heading : ℝ
  fuel : ℝ
  mass : ℝ
  distance : ℝ
  image : SatImage

/-- The state of `Planet` (`mars_orbiter.py`, `Planet.__init__`):
fixed position `x, y`, `mass`, cosmetic rotation `angle` and its
per-tick increment `rotate_by`. -/
structure Planet where
  x : ℝ
  y : ℝ
  mass : ℝ
  angle : ℝ
  rotate_by : ℝ

/-- Models Python `random.randrange a b` (with `a < b`): returns an
integer in `[a, b)`; the argument `seed` selects which outcome the
random source produces. -/
def randrange (a b seed : ℕ) : ℕ := a + seed % (b - a)

/-- Models Python `random.choice [-3, 3]`: the argument `seed` selects
which of the two outcomes the random source produces. -/
def choicePM (seed : ℕ) : ℝ := if seed % 2 = 0 then -3 else 3

/-- `Satellite.__init__`: randomized initial position and horizontal
velocity, `dy = 0`, `heading = 0`, `fuel = 100`, `mass = 1`,
`distance = 0`, initial image the (unrotated) nominal satellite image.
The three seeds select the outcomes of the three random draws. -/
noncomputable def Satellite.init (s1 s2 s3 : ℕ) : Satellite where
  x := (randrange 315 425 s1 : ℝ)
  y := (randrange 70 180 s2 : ℝ)
  dx := choicePM s3
  dy := 0
  heading := 0
  fuel := 100
  mass := 1
  distance := 0
  image := SatImage.flying 0

/-- `Planet.__init__`: mass 2000, centered at (400, 320), zero initial
angle, increment `math.degrees 0.01`. -/
noncomputable def Planet.init : Planet where
  x := 400
  y := 320
  mass := 2000
  angle := 0
  rotate_by := 0.01 * 180 / Real.pi

/-- `Satellite.thruster(dx, dy)`: adds the deltas to the velocity and
decrements fuel by 2 (the sound side effect is external). -/
def Satellite.thruster (s : Satellite) (dx dy : ℝ) : Satellite :=
  { s with dx := s.dx + dx, dy := s.dy + dy, fuel := s.fuel - 2 }

/-- `Satellite.check_keys()`: reads the key snapshot and fires at most
one thruster via the `if/elif` chain right, left, up, down. -/
def Satellite.check_keys (s : Satellite) (keys : Keys) : Satellite :=
  if keys.right then s.thruster 0.05 0
  else if keys.left then s.thruster (-0.05) 0
  else if keys.up then s.thruster 0 (-0.05)
  else if keys.down then s.thruster 0 0.05
  else s

/-- `Satellite.locate(planet)`: sets
`heading = atan2 (x - px) (y - py) * 180 / pi - 90` and
`distance = hypot (x - px) (y - py)`. -/
noncomputable def Satellite.locate (s : Satellite) (planet : Planet) : Satellite :=
  let dist_x := s.x - planet.x
  let dist_y := s.y - planet.y
  let planet_dir_radians := atan2 dist_x dist_y
  { s with
    heading := planet_dir_radians * 180 / Real.pi - 90
    distance := hypot dist_x dist_y }

/-- `Satellite.rotate()`: reassigns `self.image` to the nominal
satellite image rotated by the current heading. -/
def Satellite.rotate (s : Satellite) : Satellite :=
  { s with image := SatImage.flying s.heading }

/-- `Satellite.path()`: `x += dx; y += dy` (the line drawn from the old
to the new position is an external side effect). -/
def Satellite.path (s : Satellite) : Satellite :=
  { s with x := s.x + s.dx, y := s.y + s.dy }

/-- `Satellite.update()`: one per-tick update — `check_keys`, `rotate`,
`path`, then replace the image with the crash image exactly when
`self.dx == 0 and self.y == 0`. -/
noncomputable def Satellite.update (s : Satellite) (keys : Keys) : Satellite :=
  let s1 := s.check_keys keys
  let s2 := s1.rotate
  let s3 := s2.path
  if s3.dx = 0 ∧ s3.y = 0 then { s3 with image := SatImage.crash } else s3

/-- `Planet.gravity(satellite)`: inverse-square velocity impulse with
`G = 1.0`. In Python, `dist_x /= distance` raises `ZeroDivisionError`
when `distance` is zero; that uncaught fatal case is modelled by
`none`. -/
noncomputable def Planet.gravity (p : Planet) (s : Satellite) : Option Satellite :=
  let G : ℝ := 1.0
  let dist_x := p.x - s.x
  let dist_y := p.y - s.y
  let distance := hypot dist_x dist_y
  if distance = 0 then none
  else
    let ndx := dist_x / distance
    let ndy := dist_y / distance
    let force := G * (s.mass * p.mass) / distance ^ 2
    some { s with dx := s.dx + ndx * force, dy := s.dy + ndy * force }

/-- `Planet.rotate()` (the physics-relevant part): `angle += rotate_by`. -/
def Planet.rotateTick (p : Planet) : Planet :=
  { p with angle := p.angle + p.rotate_by }

/-! ## Helper lemmas -/

/-- Iterating `thruster` with fixed deltas `n` times costs `2 * n` fuel. -/
lemma thruster_iterate_fuel (s : Satellite) (dx dy : ℝ) (n : ℕ) :
    ((fun t => Satellite.thruster t dx dy)^[n] s).fuel = s.fuel - 2 * n := by
  induction n with
  | zero => simp
  | succ k ih =>
    rw [Function.iterate_succ_apply']
    show ((fun t => Satellite.thruster t dx dy)^[k] s).fuel - 2 = _
    rw [ih]
    push_cast
    ring

/-! ## Claims -/

/-- C3: for every satellite state, `path` computes exactly
`position_next = position_prev + velocity` (`x += dx; y += dy`), and no
field other than the position changes — in particular no term other
than the current velocity affects the new position. -/
theorem path_adds_velocity_only (s : Satellite) :
    (s.path).x = s.x + s.dx ∧ (s.path).y = s.y + s.dy ∧
    (s.path).dx = s.dx ∧ (s.path).dy = s.dy ∧
    (s.path).heading = s.heading ∧ (s.path).fuel = s.fuel ∧
    (s.path).mass = s.mass ∧ (s.path).distance = s.distance ∧
    (s.path).image = s.image :=
  ⟨rfl, rfl, rfl, rfl, rfl, rfl, rfl, rfl, rfl⟩

/-- C7: every `thruster` activation decreases fuel by exactly 2,
whatever the deltas (hence whatever the axis or direction), with no
guard on zero or negative fuel — the decrement applies to every state —
so repeated activations drive the fuel below any bound. -/
theorem thruster_fuel_unbounded_decrease (s : Satellite) (dx dy : ℝ) :
    (s.thruster dx dy).fuel = s.fuel - 2 ∧
    (s.thruster dx dy).dx = s.dx + dx ∧
    (s.thruster dx dy).dy = s.dy + dy ∧
    ∀ b : ℝ, ∃ n : ℕ, ((fun t => Satellite.thruster t dx dy)^[n] s).fuel < b := by
  refine ⟨rfl, rfl, rfl, fun b => ?_⟩
  obtain ⟨n, hn⟩ := exists_nat_gt ((s.fuel - b) / 2)
  refine ⟨n, ?_⟩
  rw [thruster_iterate_fuel]
  have h2 : (0 : ℝ) < 2 := by norm_num
  rw [div_lt_iff₀ h2] at hn
  linarith

/-- C8: per key snapshot, `check_keys` fires at most one thruster, in
priority order right > left > up > down, with deltas `+0.05` on dx for
right, `-0.05` on dx for left, `-0.05` on dy for up, `+0.05` on dy for
down; with no directional key held the satellite is unchanged and no
fuel is consumed. -/
theorem check_keys_priority (s : Satellite) (keys : Keys) :
    (keys.right = true → s.check_keys keys = s.thruster 0.05 0) ∧
    (keys.right = false → keys.left = true →
      s.check_keys keys = s.thruster (-0.05) 0) ∧
    (keys.right = false → keys.left = false → keys.up = true →
      s.check_keys keys = s.thruster 0 (-0.05)) ∧
    (keys.right = false → keys.left = false → keys.up = false →
      keys.down = true → s.check_keys keys = s.thruster 0 0.05) ∧
    (keys.right = false → keys.left = false → keys.up = false →
      keys.down = false →
      s.check_keys keys = s ∧ (s.check_keys keys).fuel = s.fuel) := by
  obtain ⟨r, l, u, d⟩ := keys
  cases r <;> cases l <;> cases u <;> cases d <;>
    simp [Satellite.check_keys]

/-- A concrete satellite state used to instantiate theorems with
hypotheses. -/
noncomputable def satA : Satellite :=
  ⟨400, 220, 0, 0, 0, 100, 1, 0, SatImage.flying 0⟩

/-- Witness for C8: with all four keys held, only the right-key
thruster fires. -/
theorem check_keys_priority_witness :
    Satellite.check_keys satA ⟨true, true, true, true⟩ =
      satA.thruster 0.05 0 :=
  (check_keys_priority satA ⟨true, true, true, true⟩).1 rfl

/-- C9: for every outcome of the random source, a freshly constructed
satellite has `x ∈ [315, 425)`, `y ∈ [70, 180)`, `dx ∈ {-3, 3}`,
`dy = 0` and `fuel = 100`. -/
theorem init_satisfies_ranges (s1 s2 s3 : ℕ) :
    (315 ≤ (Satellite.init s1 s2 s3).x ∧ (Satellite.init s1 s2 s3).x < 425) ∧
    (70 ≤ (Satellite.init s1 s2 s3).y ∧ (Satellite.init s1 s2 s3).y < 180) ∧
    ((Satellite.init s1 s2 s3).dx = -3 ∨ (Satellite.init s1 s2 s3).dx = 3) ∧
    (Satellite.init s1 s2 s3).dy = 0 ∧
    (Satellite.init s1 s2 s3).fuel = 100 := by
  have h1 : s1 % 110 < 110 := Nat.mod_lt _ (by norm_num)
  have h2 : s2 % 110 < 110 := Nat.mod_lt _ (by norm_num)
  refine ⟨⟨?_, ?_⟩, ⟨?_, ?_⟩, ?_, rfl, rfl⟩
  · show (315 : ℝ) ≤ ((randrange 315 425 s1 : ℕ) : ℝ)
    have : 315 ≤ randrange 315 425 s1 := Nat.le_add_right _ _
    exact_mod_cast this
  · show ((randrange 315 425 s1 : ℕ) : ℝ) < 425
    have : randrange 315 425 s1 < 425 := by unfold randrange; omega
    exact_mod_cast this
  · show (70 : ℝ) ≤ ((randrange 70 180 s2 : ℕ) : ℝ)
    have : 70 ≤ randrange 70 180 s2 := Nat.le_add_right _ _
    exact_mod_cast this
  · show ((randrange 70 180 s2 : ℕ) : ℝ) < 180
    have : randrange 70 180 s2 < 180 := by unfold randrange; omega
    exact_mod_cast this
  · show choicePM s3 = -3 ∨ choicePM s3 = 3
    unfold choicePM
    split <;> simp

/-- C10: `locate` is invariant under uniform translation of both the
satellite and the planet by the same offset: the heading and distance
it computes agree with the untranslated configuration. -/
theorem locate_translation_invariant (s : Satellite) (p : Planet) (tx ty : ℝ) :
    (({ s with x := s.x + tx, y := s.y + ty } : Satellite).locate
        { p with x := p.x + tx, y := p.y + ty }).heading =
      (s.locate p).heading ∧
    (({ s with x := s.x + tx, y := s.y + ty } : Satellite).locate
        { p with x := p.x + tx, y := p.y + ty }).distance =
      (s.locate p).distance := by
  have hx : s.x + tx - (p.x + tx) = s.x - p.x := by ring
  have hy : s.y + ty - (p.y + ty) = s.y - p.y := by ring
  constructor <;> simp [Satellite.locate, hx, hy]

/-- C5: during `update`, the satellite ends the tick in the crashed
visual state (its image replaced by the crash image) exactly when the
updated state satisfies `dx = 0 ∧ y = 0` — exact equality against the
coordinate origin — and under no other condition (`rotate` reassigns a
flying image on every tick before the check). -/
theorem update_crash_image_iff (s : Satellite) (keys : Keys) :
    (s.update keys).image = SatImage.crash ↔
      (s.update keys).dx = 0 ∧ (s.update keys).y = 0 := by
  simp only [Satellite.update]
  split
  next h => simpa using h
  next h => simpa [Satellite.path, Satellite.rotate] using h

/-- The key snapshot with no directional key held. -/
def keysNone : Keys := ⟨false, false, false, false⟩

/-- The key snapshot with only the right-arrow key held. -/
def keysRight : Keys := ⟨true, false, false, false⟩

/-- A satellite at rest on the x-axis (`y = 0`, `dx = dy = 0`): `update`
sends it to the crashed visual state. -/
noncomputable def satStopped : Satellite :=
  ⟨200, 0, 0, 0, 0, 100, 1, 0, SatImage.flying 0⟩

/-- The crashed satellite reached from `satStopped` by one tick. -/
noncomputable def satCrashed : Satellite := satStopped.update keysNone

/-- C6 (refuting the claimed terminal state): `satCrashed` is in the
crashed visual state, yet one further `update` with the right-arrow key
held (a thrust input changing `dx` to 0.05) returns it to the flying
image: the code re-derives the image every tick, so Crashed is not
terminal. -/
theorem crashed_state_not_terminal :
    satCrashed.image = SatImage.crash ∧
    (satCrashed.update keysRight).image ≠ SatImage.crash := by
  constructor
  · simp [satCrashed, satStopped, keysNone, Satellite.update,
      Satellite.check_keys, Satellite.rotate, Satellite.path]
  · have h : (5e-2 : ℝ) ≠ 0 := by norm_num
    simp [satCrashed, satStopped, keysNone, keysRight, Satellite.update,
      Satellite.check_keys, Satellite.thruster, Satellite.rotate,
      Satellite.path, h]

/-- `hypot a b = 0` exactly when both components vanish. -/
lemma hypot_eq_zero_iff (a b : ℝ) : hypot a b = 0 ↔ a = 0 ∧ b = 0 := by
  unfold hypot
  rw [Real.sqrt_eq_zero (by positivity)]
  constructor
  · intro h
    have ha : a ^ 2 = 0 := le_antisymm (by nlinarith [sq_nonneg b]) (sq_nonneg a)
    have hb : b ^ 2 = 0 := le_antisymm (by nlinarith [sq_nonneg a]) (sq_nonneg b)
    exact ⟨pow_eq_zero_iff two_ne_zero |>.mp ha,
      pow_eq_zero_iff two_ne_zero |>.mp hb⟩
  · rintro ⟨ha, hb⟩
    simp [ha, hb]

/-- C2: `gravity` is well-defined exactly under the precondition of
nonzero distance: it hits the uncaught division by zero (modelled
`none`) precisely when the satellite's position coincides with the
planet's, and the code has no guard, clamp or error state for that
case. -/
theorem gravity_division_by_zero_iff_coincident (p : Planet) (s : Satellite) :
    p.gravity s = none ↔ s.x = p.x ∧ s.y = p.y := by
  simp only [Planet.gravity]
  split
  next h =>
    rw [hypot_eq_zero_iff, sub_eq_zero, sub_eq_zero] at h
    simp [h.1.symm, h.2.symm]
  next h =>
    rw [hypot_eq_zero_iff] at h
    simp only [reduceCtorEq, false_iff]
    rintro ⟨hx, hy⟩
    exact h ⟨by rw [hx, sub_self], by rw [hy, sub_self]⟩

/-- C1: for every satellite at nonzero distance `d` from the planet,
one `gravity` application succeeds and adds exactly
`force * (unit vector from satellite to planet)` to the velocity, where
`force = G * satellite.mass * planet.mass / d^2` with `G = 1`, and the
position is untouched. -/
theorem gravity_adds_inverse_square_impulse (p : Planet) (s : Satellite)
    (h : hypot (p.x - s.x) (p.y - s.y) ≠ 0) :
    p.gravity s = some
      { s with
        dx := s.dx + (p.x - s.x) / hypot (p.x - s.x) (p.y - s.y) *
          (s.mass * p.mass / hypot (p.x - s.x) (p.y - s.y) ^ 2)
        dy := s.dy + (p.y - s.y) / hypot (p.x - s.x) (p.y - s.y) *
          (s.mass * p.mass / hypot (p.x - s.x) (p.y - s.y) ^ 2) } := by
  simp only [Planet.gravity, if_neg h]
  norm_num

/-- The distance from `satA` at (400, 220) to the planet at (400, 320)
is 100. -/
lemma hypot_satA : hypot (Planet.init.x - satA.x) (Planet.init.y - satA.y) = 100 := by
  show hypot (400 - 400) (320 - 220) = 100
  rw [show (400 : ℝ) - 400 = 0 by norm_num, show (320 : ℝ) - 220 = 100 by norm_num]
  unfold hypot
  rw [show (0 : ℝ) ^ 2 + 100 ^ 2 = 100 ^ 2 by norm_num]
  exact Real.sqrt_sq (by norm_num)

/-- Witness for C1: the concrete scenario — planet at (400, 320) with
mass 2000, satellite at (400, 220) with mass 1 and velocity (0, 0) —
yields velocity (0, 0.2) after one gravity application. -/
theorem gravity_adds_inverse_square_impulse_witness :
    ∃ s' , Planet.init.gravity satA = some s' ∧ s'.dx = 0 ∧ s'.dy = 0.2 := by
  refine ⟨_, gravity_adds_inverse_square_impulse Planet.init satA
    (by rw [hypot_satA]; norm_num), ?_, ?_⟩
  · show satA.dx + (Planet.init.x - satA.x) / _ * _ = 0
    rw [hypot_satA]
    simp [satA, Planet.init]
  · show satA.dy + (Planet.init.y - satA.y) / _ * _ = 0.2
    rw [hypot_satA]
    simp [satA, Planet.init]
    norm_num

/-- A satellite at (100, 100), the concrete scenario of the heading
computation. -/
noncomputable def satB : Satellite :=
  ⟨100, 100, 0, 0, 0, 100, 1, 0, SatImage.flying 0⟩

/-- A planet at (100, 200), the concrete scenario of the heading
computation. -/
noncomputable def planetB : Planet := ⟨100, 200, 2000, 0, 0⟩

/-- `atan2 0 x = pi` for negative `x`. -/
lemma atan2_zero_of_neg (x : ℝ) (hx : x < 0) : atan2 0 x = Real.pi := by
  unfold atan2
  have hz : ({ re := x, im := 0 } : ℂ) = (x : ℂ) := by
    apply Complex.ext <;> simp
  rw [hz]
  exact Complex.arg_ofReal_of_neg hx

/-- C4: `locate` sets
`heading = atan2 (sat.x - planet.x) (sat.y - planet.y) * 180 / pi - 90`
and `distance = hypot (sat.x - planet.x) (sat.y - planet.y)`; in
particular, a satellite at (100, 100) with the planet at (100, 200)
gets heading 90 degrees. -/
theorem locate_heading_formula (s : Satellite) (p : Planet) :
    (s.locate p).heading =
      atan2 (s.x - p.x) (s.y - p.y) * 180 / Real.pi - 90 ∧
    (s.locate p).distance = hypot (s.x - p.x) (s.y - p.y) ∧
    (satB.locate planetB).heading = 90 := by
  refine ⟨rfl, rfl, ?_⟩
  show atan2 (satB.x - planetB.x) (satB.y - planetB.y) * 180 / Real.pi - 90 = 90
  have h1 : satB.x - planetB.x = 0 := by
    show (100 : ℝ) - 100 = 0
    norm_num
  have h2 : satB.y - planetB.y = -100 := by
    show (100 : ℝ) - 200 = -100
    norm_num
  rw [h1, h2, atan2_zero_of_neg (-100) (by norm_num)]
  rw [mul_comm, mul_div_assoc, div_self Real.pi_ne_zero, mul_one]
  norm_num

end MarsOrbiter
